import Mathlib

/-!
Verification of the client-side authentication session manager of the
Parker comic server frontend (`static/js/app.js`, the global fetch wrapper).

The wrapper intercepts every outbound call, injects the stored bearer
credential, and on a 401 response coordinates a single-flight refresh of the
credential pair across arbitrarily many concurrent in-flight calls.

Embedding strategy: the JavaScript runs single-threaded with cooperative
suspension at its `await` points.  Each intercepted call that has already
received its original response is a *caller* identified by a natural number;
its 401-continuation (the body of `if (response.status === 401)`) runs
atomically up to the next suspension point.  A system state records the
module-level mutable data (`localStorage` slots, `isRefreshing`,
`failedQueue`), the observable effects (navigations, cookie writes, renewal
network calls with their request bodies), and each caller's phase.  An
execution is a fold of scheduler actions over the state: `Act.run i` runs
caller i's 401-continuation, `Act.complete res` delivers the result of the
in-flight renewal call and runs the initiator's continuation together with
the queued waiters' microtask continuations.
-/

namespace Parker

/-- `leadsWith sub l` : the character list `sub` is an initial segment of `l`. -/
def leadsWith : List Char → List Char → Bool
  | [], _ => true
  | _ :: _, [] => false
  | a :: as, b :: bs => a == b && leadsWith as bs

/-- `listContains sub l` : `sub` occurs contiguously somewhere inside `l`. -/
def listContains (sub : List Char) : List Char → Bool
  | [] => sub.isEmpty
  | c :: cs => leadsWith sub (c :: cs) || listContains sub cs

/-- JavaScript `s.includes(sub)`: substring containment anywhere in `s`. -/
def jsIncludes (s sub : String) : Bool := listContains sub.toList s.toList

/-- The recursion-guard test of line 61:
`url.includes('/token') || url.includes('/refresh')`. -/
def credEndpoint (u : String) : Bool := jsIncludes u "/token" || jsIncludes u "/refresh"

/-- An HTTP response, reduced to what the wrapper inspects. -/
structure Response where
  status : Nat
  body : String := ""
deriving DecidableEq

/-- Parsed body of a successful renewal response:
`{ access_token, refresh_token, lifetime_in_seconds }`. -/
structure RenewalData where
  access_token : String
  refresh_token : String
  lifetime_in_seconds : Nat
deriving DecidableEq

/-- The two `localStorage` credential slots, keys `token` and `refresh_token`. -/
structure Store where
  token : Option String
  refresh_token : Option String
deriving DecidableEq

/-- A cookie write, as produced by the `document.cookie = ...` assignment. -/
structure Cookie where
  name : String
  value : String
  path : String
  maxAge : Nat
  sameSite : String
deriving DecidableEq

/-- A cookie reaches cross-site subresource requests only with SameSite=None;
both `Lax` and `Strict` withhold it there. -/
def sentCrossSite (c : Cookie) : Bool := c.sameSite == "None"

/-- Final result of one intercepted call, as returned to its caller. -/
inductive Outcome
  /-- Non-401 response returned unchanged (line 120 `return response`). -/
  | passthrough (resp : Response)
  /-- The caller's own original 401 returned (logout branch line 72, waiter
  catch line 53, or refresh-failure line 113). -/
  | original401 (resp : Response)
  /-- The call was re-issued once with credential `tok` attached and the retry
  response was returned as-is (lines 49-50 and 100-101). -/
  | retried (resp : Response) (tok : String)
deriving DecidableEq

/-- Where a caller stands in its 401-continuation. -/
inductive Phase
  /-- Original response received; continuation not yet run. -/
  | ready
  /-- Enqueued on `failedQueue`, suspended on its waiter promise. -/
  | waiting
  /-- This caller issued the renewal call and is suspended on it. -/
  | refreshing
  /-- Continuation finished with result `r`. -/
  | done (r : Outcome)
deriving DecidableEq

/-- The environment: per-caller request target and the network's answers.
`origResp i` is the response caller i's original dispatch received;
`retryResp i` is the response its (at most one) retry would receive. -/
structure Env where
  url : Nat → String
  origResp : Nat → Response
  retryResp : Nat → Response

/-- Global system state: module-level mutables plus effect logs. -/
structure SysState where
  /-- The two `localStorage` slots. -/
  store : Store
  /-- Module-level `isRefreshing` flag. -/
  isRefreshing : Bool
  /-- `failedQueue`, as the FIFO list of enqueued caller ids. -/
  queue : List Nat
  /-- The caller whose continuation issued the in-flight renewal call. -/
  initiator : Option Nat
  /-- `window.location.pathname` at interception time. -/
  path : String
  /-- Log of `window.location.href` assignments (navigations), in order. -/
  redirects : List String
  /-- Log of cookie writes, in order. -/
  cookies : List Cookie
  /-- Log of renewal network calls: the `refresh_token` body of each, in order. -/
  renewals : List String
  /-- Log of waiter `resolve` calls (success fan-out), in order. -/
  resolveLog : List Nat
  /-- Log of waiter `reject` calls (failure fan-out), in order. -/
  rejectLog : List Nat
  /-- Log of retry dispatches: caller id and the bearer credential attached. -/
  retryLog : List (Nat × String)
  /-- Per-caller phase. -/
  phases : Nat → Phase

/-- Point update of the phase map. -/
def setPhase (f : Nat → Phase) (i : Nat) (p : Phase) : Nat → Phase :=
  fun k => if k = i then p else f k

/-- Lines 63-72: the immediate-logout branch.  Both slots are removed, then
navigation to `/login` happens only when the current pathname does not already
contain `/login`, and the caller gets its original 401 back. -/
def logout401 (env : Env) (i : Nat) (st : SysState) : SysState :=
  { st with
    store := ⟨none, none⟩
    redirects :=
      if jsIncludes st.path "/login" then st.redirects else st.redirects ++ ["/login"]
    phases := setPhase st.phases i (Phase.done (Outcome.original401 (env.origResp i))) }

/-- Lines 43-83: the continuation of caller i after observing a 401.
If a refresh is already in flight the caller enqueues a waiter (lines 45-47);
otherwise, with no stored refresh token or a credential-endpoint target, it
logs out immediately (lines 60-72); otherwise it sets `isRefreshing`, issues
the renewal call carrying the stored refresh token (lines 75-82) and suspends
on it. -/
def handle401 (env : Env) (i : Nat) (st : SysState) : SysState :=
  if st.isRefreshing then
    { st with
      queue := st.queue ++ [i]
      phases := setPhase st.phases i Phase.waiting }
  else if st.store.refresh_token.isNone || credEndpoint (env.url i) then
    logout401 env i st
  else
    { st with
      isRefreshing := true
      initiator := some i
      renewals := st.renewals ++ [st.store.refresh_token.getD ""]
      phases := setPhase st.phases i Phase.refreshing }

/-- Run caller i's post-response continuation: a non-401 response is returned
unchanged (line 120); a 401 enters `handle401`.  A caller that is not `ready`
has nothing to run. -/
def runCaller (env : Env) (i : Nat) (st : SysState) : SysState :=
  if st.phases i = Phase.ready then
    if (env.origResp i).status = 401 then handle401 env i st
    else { st with phases := setPhase st.phases i (Phase.done (Outcome.passthrough (env.origResp i))) }
  else st

/-- Delivery of the renewal result to the suspended initiator (lines 85-117).

On success (`some d`, i.e. `refreshRes.ok` with parsed body `d`): both slots
are replaced by the new pair, the cookie is written
(`access_token=...; path=/; max-age=lifetime; SameSite=Lax`), every queued
waiter is resolved with the new access token in FIFO order, the initiator
retries first (its `return originalFetch` precedes the waiters' microtasks)
and each resolved waiter retries once with the same token; `isRefreshing`
clears in the `finally`.

On failure (`none`: network error, non-ok status, or body-parse error): every
queued waiter is rejected in FIFO order (each then returns its own original
401 via its catch), both slots are removed, navigation to `/login` happens
unconditionally, and the initiator returns its original 401. -/
def completeRenewal (env : Env) (res : Option RenewalData) (st : SysState) : SysState :=
  match st.initiator with
  | none => st
  | some j =>
    match res with
    | some d =>
      { st with
        store := ⟨some d.access_token, some d.refresh_token⟩
        cookies := st.cookies ++ [⟨"access_token", d.access_token, "/", d.lifetime_in_seconds, "Lax"⟩]
        resolveLog := st.resolveLog ++ st.queue
        retryLog := st.retryLog ++ (j :: st.queue).map (fun k => (k, d.access_token))
        queue := []
        initiator := none
        isRefreshing := false
        phases := fun k =>
          if k = j ∨ k ∈ st.queue then
            Phase.done (Outcome.retried (env.retryResp k) d.access_token)
          else st.phases k }
    | none =>
      { st with
        store := ⟨none, none⟩
        redirects := st.redirects ++ ["/login"]
        rejectLog := st.rejectLog ++ st.queue
        queue := []
        initiator := none
        isRefreshing := false
        phases := fun k =>
          if k = j ∨ k ∈ st.queue then
            Phase.done (Outcome.original401 (env.origResp k))
          else st.phases k }

/-- A scheduler action: run a ready caller's 401-continuation, or deliver the
in-flight renewal's result. -/
inductive Act
  | run (i : Nat)
  | complete (res : Option RenewalData)

/-- One scheduler step. -/
def step (env : Env) (st : SysState) : Act → SysState
  | Act.run i => runCaller env i st
  | Act.complete res => completeRenewal env res st

/-- Execute a schedule. -/
def exec (env : Env) (st : SysState) : List Act → SysState
  | [] => st
  | a :: as => exec env (step env st a) as

/-- Initial state: stored credential pair `tok`/`rt`, current pathname `path`,
no refresh in flight, empty queue and logs, every caller ready. -/
def initState (tok rt : Option String) (path : String) : SysState :=
  { store := ⟨tok, rt⟩
    isRefreshing := false
    queue := []
    initiator := none
    path := path
    redirects := []
    cookies := []
    renewals := []
    resolveLog := []
    rejectLog := []
    retryLog := []
    phases := fun _ => Phase.ready }

/-! ### Trace composition lemmas -/

theorem exec_append (env : Env) (st : SysState) (as bs : List Act) :
    exec env st (as ++ bs) = exec env (exec env st as) bs := by
  induction as generalizing st with
  | nil => rfl
  | cons a as ih => simp [exec, ih]

/-- Closed form of the first caller's step from an idle state with a stored
refresh credential and a non-credential-endpoint target: it transitions to
Refreshing and issues the one renewal call carrying the stored token. -/
theorem runCaller_start (env : Env) (i : Nat) (st : SysState) (rt : String)
    (hready : st.phases i = Phase.ready)
    (h401 : (env.origResp i).status = 401)
    (hidle : st.isRefreshing = false)
    (hrt : st.store.refresh_token = some rt)
    (hurl : credEndpoint (env.url i) = false) :
    runCaller env i st =
      { st with
        isRefreshing := true
        initiator := some i
        renewals := st.renewals ++ [rt]
        phases := setPhase st.phases i Phase.refreshing } := by
  simp [runCaller, handle401, hready, h401, hidle, hrt, hurl]

/-- Closed form of running a batch of further 401 callers while a refresh is
in flight: each one only enqueues itself, in order; no state beyond the queue
and the phases changes — in particular no further renewal call is issued. -/
theorem exec_runs_refreshing (env : Env) (rest : List Nat) :
    ∀ st : SysState, st.isRefreshing = true →
    (∀ j ∈ rest, st.phases j = Phase.ready) →
    (∀ j ∈ rest, (env.origResp j).status = 401) →
    rest.Nodup →
    exec env st (rest.map Act.run) =
      { st with
        queue := st.queue ++ rest
        phases := fun k => if k ∈ rest then Phase.waiting else st.phases k } := by
  induction rest with
  | nil =>
    intro st _ _ _ _
    cases st
    simp [exec]
  | cons j js ih =>
    intro st hbusy hready h401 hnd
    have hjready : st.phases j = Phase.ready := hready j (List.mem_cons_self j js)
    have hstep : runCaller env j st =
        { st with
          queue := st.queue ++ [j]
          phases := setPhase st.phases j Phase.waiting } := by
      simp [runCaller, handle401, hjready, h401 j (List.mem_cons_self j js), hbusy]
    have hjnotin : j ∉ js := (List.nodup_cons.mp hnd).1
    have hrec := ih
      { st with
        queue := st.queue ++ [j]
        phases := setPhase st.phases j Phase.waiting }
      hbusy
      (by
        intro m hm
        have hmj : m ≠ j := fun h => hjnotin (h ▸ hm)
        simpa [setPhase, hmj] using hready m (List.mem_cons_of_mem j hm))
      (fun m hm => h401 m (List.mem_cons_of_mem j hm))
      (List.nodup_cons.mp hnd).2
    calc exec env st ((j :: js).map Act.run)
        = exec env (runCaller env j st) (js.map Act.run) := rfl
      _ = _ := by
          rw [hstep, hrec]
          congr 1
          · simp
          · funext k
            by_cases hkj : k = j
            · subst hkj
              simp [setPhase, hjnotin]
            · by_cases hkjs : k ∈ js <;> simp [setPhase, hkj, hkjs]

/-- Closed form of the whole fan-in: from the initial state, caller `i` starts
the refresh and the remaining callers enqueue behind it. -/
theorem exec_fanin (env : Env) (tok : Option String) (rt path : String)
    (i : Nat) (rest : List Nat)
    (hnd : (i :: rest).Nodup)
    (h401 : ∀ j ∈ i :: rest, (env.origResp j).status = 401)
    (hurl : credEndpoint (env.url i) = false) :
    exec env (initState tok (some rt) path) ((i :: rest).map Act.run) =
      { initState tok (some rt) path with
        isRefreshing := true
        initiator := some i
        renewals := [rt]
        queue := rest
        phases := fun k =>
          if k ∈ rest then Phase.waiting
          else if k = i then Phase.refreshing else Phase.ready } := by
  have hstart := runCaller_start env i (initState tok (some rt) path) rt rfl
    (h401 i (List.mem_cons_self i rest)) rfl rfl hurl
  have hinotin : i ∉ rest := (List.nodup_cons.mp hnd).1
  have hrec := exec_runs_refreshing env rest
    { initState tok (some rt) path with
      isRefreshing := true
      initiator := some i
      renewals := [rt]
      phases := setPhase (fun _ => Phase.ready) i Phase.refreshing }
    rfl
    (by
      intro m hm
      have hmi : m ≠ i := fun h => hinotin (h ▸ hm)
      simp [setPhase, hmi])
    (fun m hm => h401 m (List.mem_cons_of_mem i hm))
    (List.nodup_cons.mp hnd).2
  calc exec env (initState tok (some rt) path) ((i :: rest).map Act.run)
      = exec env (runCaller env i (initState tok (some rt) path)) (rest.map Act.run) := rfl
    _ = _ := by
        rw [hstart]
        simp only [initState, List.nil_append] at hrec ⊢
        rw [hrec]
        congr 1

/-- Closed form of successful renewal delivery to a state whose in-flight
initiator is `j`. -/
theorem completeRenewal_some (env : Env) (d : RenewalData) (st : SysState) (j : Nat)
    (hinit : st.initiator = some j) :
    completeRenewal env (some d) st =
      { st with
        store := ⟨some d.access_token, some d.refresh_token⟩
        cookies := st.cookies ++ [⟨"access_token", d.access_token, "/", d.lifetime_in_seconds, "Lax"⟩]
        resolveLog := st.resolveLog ++ st.queue
        retryLog := st.retryLog ++ (j :: st.queue).map (fun k => (k, d.access_token))
        queue := []
        initiator := none
        isRefreshing := false
        phases := fun k =>
          if k = j ∨ k ∈ st.queue then
            Phase.done (Outcome.retried (env.retryResp k) d.access_token)
          else st.phases k } := by
  simp [completeRenewal, hinit]

/-- Closed form of failed renewal delivery to a state whose in-flight
initiator is `j`. -/
theorem completeRenewal_none (env : Env) (st : SysState) (j : Nat)
    (hinit : st.initiator = some j) :
    completeRenewal env none st =
      { st with
        store := ⟨none, none⟩
        redirects := st.redirects ++ ["/login"]
        rejectLog := st.rejectLog ++ st.queue
        queue := []
        initiator := none
        isRefreshing := false
        phases := fun k =>
          if k = j ∨ k ∈ st.queue then
            Phase.done (Outcome.original401 (env.origResp k))
          else st.phases k } := by
  simp [completeRenewal, hinit]

/-! ### Claims -/

/-- C1 — Single-flight renewal: for N ≥ 1 concurrent calls (here caller `i`
followed by the callers in `rest`) that each receive a 401 while a valid
refresh credential `rt` is stored, exactly one renewal network call is issued:
the first caller `i` observes the idle state, transitions it to Refreshing and
performs the renewal call (carrying `rt`), and every later concurrent caller
observes Refreshing, enqueues a waiter, and never issues a second renewal
call — the renewal log stays `[rt]` throughout. -/
theorem single_flight_renewal (env : Env) (tok : Option String) (rt path : String)
    (i : Nat) (rest : List Nat)
    (hnd : (i :: rest).Nodup)
    (h401 : ∀ j ∈ i :: rest, (env.origResp j).status = 401)
    (hurl : ∀ j ∈ i :: rest, credEndpoint (env.url j) = false) :
    (exec env (initState tok (some rt) path) [Act.run i]).isRefreshing = true ∧
    (exec env (initState tok (some rt) path) [Act.run i]).renewals = [rt] ∧
    (exec env (initState tok (some rt) path) ((i :: rest).map Act.run)).renewals = [rt] ∧
    (exec env (initState tok (some rt) path) ((i :: rest).map Act.run)).queue = rest ∧
    (exec env (initState tok (some rt) path) ((i :: rest).map Act.run)).phases i
      = Phase.refreshing ∧
    ∀ j ∈ rest,
      (exec env (initState tok (some rt) path) ((i :: rest).map Act.run)).phases j
        = Phase.waiting := by
  have hii : i ∈ i :: rest := List.mem_cons_self i rest
  have hstart := runCaller_start env i (initState tok (some rt) path) rt rfl
    (h401 i hii) rfl rfl (hurl i hii)
  have hfan := exec_fanin env tok rt path i rest hnd h401 (hurl i hii)
  have hinotin : i ∉ rest := (List.nodup_cons.mp hnd).1
  have hone : exec env (initState tok (some rt) path) [Act.run i]
      = runCaller env i (initState tok (some rt) path) := rfl
  refine ⟨?_, ?_, ?_, ?_, ?_, ?_⟩
  · rw [hone, hstart]
  · rw [hone, hstart]; simp [initState]
  · rw [hfan]
  · rw [hfan]
  · rw [hfan]; simp [hinotin]
  · intro j hj; rw [hfan]; simp [hj]

/-- Concrete environment for witnesses: three ordinary API calls that all
receive a 401, with a stored credential pair present. -/
def wEnv : Env :=
  { url := fun _ => "/api/items"
    origResp := fun _ => ⟨401, "expired"⟩
    retryResp := fun _ => ⟨200, "ok"⟩ }

theorem single_flight_renewal_witness :
    (exec wEnv (initState (some "t1") (some "r1") "/library") [Act.run 0]).isRefreshing = true ∧
    (exec wEnv (initState (some "t1") (some "r1") "/library") [Act.run 0]).renewals = ["r1"] ∧
    (exec wEnv (initState (some "t1") (some "r1") "/library")
      ([0, 1, 2].map Act.run)).renewals = ["r1"] ∧
    (exec wEnv (initState (some "t1") (some "r1") "/library")
      ([0, 1, 2].map Act.run)).queue = [1, 2] ∧
    (exec wEnv (initState (some "t1") (some "r1") "/library")
      ([0, 1, 2].map Act.run)).phases 0 = Phase.refreshing ∧
    ∀ j ∈ [1, 2],
      (exec wEnv (initState (some "t1") (some "r1") "/library")
        ([0, 1, 2].map Act.run)).phases j = Phase.waiting :=
  single_flight_renewal wEnv (some "t1") "r1" "/library" 0 [1, 2]
    (by decide) (by decide) (by decide)

/-- C2 — Renewal-failure handling: when the renewal call fails, both stored
credential slots are cleared, every queued waiter is rejected (in FIFO order),
every dispatch caller — initiator and waiters alike — ends with its own
original 401 response as its result, exactly one navigation to the login
surface occurs regardless of the number of waiters, and still only the one
renewal call was ever issued. -/
theorem renewal_failure_handling (env : Env) (tok : Option String) (rt path : String)
    (i : Nat) (rest : List Nat)
    (hnd : (i :: rest).Nodup)
    (h401 : ∀ j ∈ i :: rest, (env.origResp j).status = 401)
    (hurl : credEndpoint (env.url i) = false) :
    (exec env (initState tok (some rt) path)
        ((i :: rest).map Act.run ++ [Act.complete none])).store = ⟨none, none⟩ ∧
    (exec env (initState tok (some rt) path)
        ((i :: rest).map Act.run ++ [Act.complete none])).rejectLog = rest ∧
    (∀ j ∈ i :: rest,
      (exec env (initState tok (some rt) path)
          ((i :: rest).map Act.run ++ [Act.complete none])).phases j
        = Phase.done (Outcome.original401 (env.origResp j))) ∧
    (exec env (initState tok (some rt) path)
        ((i :: rest).map Act.run ++ [Act.complete none])).redirects = ["/login"] ∧
    (exec env (initState tok (some rt) path)
        ((i :: rest).map Act.run ++ [Act.complete none])).renewals = [rt] := by
  have hfan := exec_fanin env tok rt path i rest hnd h401 hurl
  have hsplit : exec env (initState tok (some rt) path)
      ((i :: rest).map Act.run ++ [Act.complete none])
      = completeRenewal env none
          (exec env (initState tok (some rt) path) ((i :: rest).map Act.run)) := by
    rw [exec_append]; rfl
  rw [hsplit, hfan, completeRenewal_none env _ i rfl]
  refine ⟨rfl, rfl, ?_, rfl, rfl⟩
  intro j hj
  rcases List.mem_cons.mp hj with h | h <;> simp [h]

theorem renewal_failure_handling_witness :
    (exec wEnv (initState (some "t1") (some "r1") "/library")
        ([0, 1, 2].map Act.run ++ [Act.complete none])).store = ⟨none, none⟩ ∧
    (exec wEnv (initState (some "t1") (some "r1") "/library")
        ([0, 1, 2].map Act.run ++ [Act.complete none])).rejectLog = [1, 2] ∧
    (∀ j ∈ [0, 1, 2],
      (exec wEnv (initState (some "t1") (some "r1") "/library")
          ([0, 1, 2].map Act.run ++ [Act.complete none])).phases j
        = Phase.done (Outcome.original401 (wEnv.origResp j))) ∧
    (exec wEnv (initState (some "t1") (some "r1") "/library")
        ([0, 1, 2].map Act.run ++ [Act.complete none])).redirects = ["/login"] ∧
    (exec wEnv (initState (some "t1") (some "r1") "/library")
        ([0, 1, 2].map Act.run ++ [Act.complete none])).renewals = ["r1"] :=
  renewal_failure_handling wEnv (some "t1") "r1" "/library" 0 [1, 2]
    (by decide) (by decide) (by decide)

/-- C3 — Resolution fan-out: on renewal success with body `d`, every one of
the concurrently expired callers is retried exactly once with the single new
access credential attached (the retry log lists each caller once, all sharing
`d.access_token`), the queued waiters are resolved in FIFO enqueue order, and
only the one renewal call was issued. -/
theorem resolution_fanout (env : Env) (tok : Option String) (rt path : String)
    (d : RenewalData) (i : Nat) (rest : List Nat)
    (hnd : (i :: rest).Nodup)
    (h401 : ∀ j ∈ i :: rest, (env.origResp j).status = 401)
    (hurl : credEndpoint (env.url i) = false) :
    (exec env (initState tok (some rt) path)
        ((i :: rest).map Act.run ++ [Act.complete (some d)])).resolveLog = rest ∧
    (∀ j ∈ i :: rest,
      (exec env (initState tok (some rt) path)
          ((i :: rest).map Act.run ++ [Act.complete (some d)])).phases j
        = Phase.done (Outcome.retried (env.retryResp j) d.access_token)) ∧
    (exec env (initState tok (some rt) path)
        ((i :: rest).map Act.run ++ [Act.complete (some d)])).retryLog
      = (i :: rest).map (fun k => (k, d.access_token)) ∧
    (exec env (initState tok (some rt) path)
        ((i :: rest).map Act.run ++ [Act.complete (some d)])).renewals = [rt] := by
  have hfan := exec_fanin env tok rt path i rest hnd h401 hurl
  have hsplit : exec env (initState tok (some rt) path)
      ((i :: rest).map Act.run ++ [Act.complete (some d)])
      = completeRenewal env (some d)
          (exec env (initState tok (some rt) path) ((i :: rest).map Act.run)) := by
    rw [exec_append]; rfl
  rw [hsplit, hfan, completeRenewal_some env d _ i rfl]
  refine ⟨rfl, ?_, rfl, rfl⟩
  intro j hj
  rcases List.mem_cons.mp hj with h | h <;> simp [h]

theorem resolution_fanout_witness :
    (exec wEnv (initState (some "t1") (some "r1") "/library")
        ([0, 1, 2].map Act.run ++ [Act.complete (some ⟨"A2", "R2", 3600⟩)])).resolveLog
      = [1, 2] ∧
    (∀ j ∈ [0, 1, 2],
      (exec wEnv (initState (some "t1") (some "r1") "/library")
          ([0, 1, 2].map Act.run ++ [Act.complete (some ⟨"A2", "R2", 3600⟩)])).phases j
        = Phase.done (Outcome.retried (wEnv.retryResp j) "A2")) ∧
    (exec wEnv (initState (some "t1") (some "r1") "/library")
        ([0, 1, 2].map Act.run ++ [Act.complete (some ⟨"A2", "R2", 3600⟩)])).retryLog
      = [0, 1, 2].map (fun k => (k, "A2")) ∧
    (exec wEnv (initState (some "t1") (some "r1") "/library")
        ([0, 1, 2].map Act.run ++ [Act.complete (some ⟨"A2", "R2", 3600⟩)])).renewals
      = ["r1"] :=
  resolution_fanout wEnv (some "t1") "r1" "/library" ⟨"A2", "R2", 3600⟩ 0 [1, 2]
    (by decide) (by decide) (by decide)

/-- C4 counterexample — the claim that session termination checks the current
location on *every* terminal-logout path is false: starting already at the
login surface (`path = "/login"`), a renewal failure still performs a
navigation to `/login` (the redirect log is nonempty), because the
refresh-failure catch block assigns `window.location.href` unconditionally. -/
theorem termination_guard_counterexample :
    jsIncludes (initState (some "t1") (some "r1") "/login").path "/login" = true ∧
    (exec wEnv (initState (some "t1") (some "r1") "/login")
        [Act.run 0, Act.complete none]).redirects = ["/login"] := by
  exact ⟨by decide, by decide⟩

/-- C4 amended — the idempotent termination guard exists only on the
immediate-logout path (no stored refresh credential, or a credential-endpoint
target): there the current pathname is tested for the login-surface substring
and navigation is skipped when it already matches; the renewal-failure logout
path, by contrast, navigates to the login surface unconditionally, even when
the current location is already the login surface. -/
theorem termination_guard_amended (env : Env) (i j : Nat) (st st2 : SysState)
    (hready : st.phases i = Phase.ready)
    (h401 : (env.origResp i).status = 401)
    (hidle : st.isRefreshing = false)
    (hrt : st.store.refresh_token = none)
    (hinit : st2.initiator = some j) :
    ((jsIncludes st.path "/login" = true →
        (runCaller env i st).redirects = st.redirects) ∧
     (jsIncludes st.path "/login" = false →
        (runCaller env i st).redirects = st.redirects ++ ["/login"])) ∧
    (completeRenewal env none st2).redirects = st2.redirects ++ ["/login"] := by
  refine ⟨⟨?_, ?_⟩, ?_⟩
  · intro hp
    simp [runCaller, handle401, logout401, hready, h401, hidle, hrt, hp]
  · intro hp
    simp [runCaller, handle401, logout401, hready, h401, hidle, hrt, hp]
  · simp [completeRenewal, hinit]

theorem termination_guard_amended_witness :
    ((jsIncludes (initState (some "t1") none "/login").path "/login" = true →
        (runCaller wEnv 0 (initState (some "t1") none "/login")).redirects
          = (initState (some "t1") none "/login").redirects) ∧
     (jsIncludes (initState (some "t1") none "/login").path "/login" = false →
        (runCaller wEnv 0 (initState (some "t1") none "/login")).redirects
          = (initState (some "t1") none "/login").redirects ++ ["/login"])) ∧
    (completeRenewal wEnv none
        { initState (some "t1") (some "r1") "/library" with initiator := some 0 }).redirects
      = { initState (some "t1") (some "r1") "/library" with initiator := some 0 }.redirects
          ++ ["/login"] :=
  termination_guard_amended wEnv 0 0 (initState (some "t1") none "/login")
    { initState (some "t1") (some "r1") "/library" with initiator := some 0 }
    rfl (by decide) rfl rfl rfl

/-- C5 — Recursion guard: a caller whose target contains `/token` or
`/refresh` (the renewal and credential-issuing endpoints) never issues a
renewal network call when its dispatch comes back 401 — in any state the
renewal log is unchanged by running it — and when no refresh is in flight the
logout branch runs immediately: both slots are cleared and the caller gets its
original 401 back. -/
theorem recursion_guard (env : Env) (i : Nat) (st : SysState)
    (hready : st.phases i = Phase.ready)
    (h401 : (env.origResp i).status = 401)
    (hurl : credEndpoint (env.url i) = true) :
    (runCaller env i st).renewals = st.renewals ∧
    (st.isRefreshing = false →
      (runCaller env i st).store = ⟨none, none⟩ ∧
      (runCaller env i st).phases i = Phase.done (Outcome.original401 (env.origResp i))) := by
  by_cases hbusy : st.isRefreshing = true
  · refine ⟨?_, ?_⟩
    · simp [runCaller, handle401, hready, h401, hbusy]
    · intro h; rw [h] at hbusy; exact absurd hbusy (by decide)
  · rw [Bool.not_eq_true] at hbusy
    refine ⟨?_, fun _ => ⟨?_, ?_⟩⟩ <;>
      simp [runCaller, handle401, logout401, setPhase, hready, h401, hbusy, hurl]

/-- Environment for the recursion-guard witness: the dispatched call targets
the renewal endpoint itself. -/
def gEnv : Env :=
  { url := fun _ => "/api/auth/refresh"
    origResp := fun _ => ⟨401, "expired"⟩
    retryResp := fun _ => ⟨200, "ok"⟩ }

theorem recursion_guard_witness :
    (runCaller gEnv 0 (initState (some "t1") (some "r1") "/library")).renewals
      = (initState (some "t1") (some "r1") "/library").renewals ∧
    ((initState (some "t1") (some "r1") "/library").isRefreshing = false →
      (runCaller gEnv 0 (initState (some "t1") (some "r1") "/library")).store
        = ⟨none, none⟩ ∧
      (runCaller gEnv 0 (initState (some "t1") (some "r1") "/library")).phases 0
        = Phase.done (Outcome.original401 (gEnv.origResp 0))) :=
  recursion_guard gEnv 0 (initState (some "t1") (some "r1") "/library")
    rfl (by decide) (by decide)

/-- C7 — No-credential shortcut: a dispatch that receives a 401 while no
refresh credential is stored (and the page is not already the login surface)
logs out immediately: both slots are cleared, exactly one navigation to the
login surface is appended, no renewal network call is made, and the caller
receives its original 401 response. -/
theorem no_credential_shortcut (env : Env) (i : Nat) (st : SysState)
    (hready : st.phases i = Phase.ready)
    (h401 : (env.origResp i).status = 401)
    (hidle : st.isRefreshing = false)
    (hrt : st.store.refresh_token = none)
    (hpath : jsIncludes st.path "/login" = false) :
    (runCaller env i st).store = ⟨none, none⟩ ∧
    (runCaller env i st).redirects = st.redirects ++ ["/login"] ∧
    (runCaller env i st).renewals = st.renewals ∧
    (runCaller env i st).phases i = Phase.done (Outcome.original401 (env.origResp i)) := by
  refine ⟨?_, ?_, ?_, ?_⟩ <;>
    simp [runCaller, handle401, logout401, setPhase, hready, h401, hidle, hrt, hpath]

theorem no_credential_shortcut_witness :
    (runCaller wEnv 0 (initState (some "t1") none "/library")).store = ⟨none, none⟩ ∧
    (runCaller wEnv 0 (initState (some "t1") none "/library")).redirects
      = (initState (some "t1") none "/library").redirects ++ ["/login"] ∧
    (runCaller wEnv 0 (initState (some "t1") none "/library")).renewals
      = (initState (some "t1") none "/library").renewals ∧
    (runCaller wEnv 0 (initState (some "t1") none "/library")).phases 0
      = Phase.done (Outcome.original401 (wEnv.origResp 0)) :=
  no_credential_shortcut wEnv 0 (initState (some "t1") none "/library")
    rfl (by decide) rfl rfl (by decide)

/-- C6 — No infinite retry: after a successful renewal, each retried request
(the initiator `i` and the waiter `j`) returns its retry response — here
itself a 401 — as the caller's final result; only the one renewal call was
ever made, and running either finished caller again changes nothing (a done
caller never starts a second renewal cycle, because the retry response is
returned without re-entering the 401 handler). -/
theorem retry_still_expired_terminal (env : Env) (tok : Option String) (rt path : String)
    (d : RenewalData) (i j : Nat) (hij : i ≠ j)
    (h401 : ∀ k ∈ [i, j], (env.origResp k).status = 401)
    (hurl : credEndpoint (env.url i) = false)
    (hretryi : (env.retryResp i).status = 401)
    (hretryj : (env.retryResp j).status = 401) :
    (exec env (initState tok (some rt) path)
        ([i, j].map Act.run ++ [Act.complete (some d)])).phases i
      = Phase.done (Outcome.retried (env.retryResp i) d.access_token) ∧
    (exec env (initState tok (some rt) path)
        ([i, j].map Act.run ++ [Act.complete (some d)])).phases j
      = Phase.done (Outcome.retried (env.retryResp j) d.access_token) ∧
    (exec env (initState tok (some rt) path)
        ([i, j].map Act.run ++ [Act.complete (some d)])).renewals = [rt] ∧
    runCaller env i (exec env (initState tok (some rt) path)
        ([i, j].map Act.run ++ [Act.complete (some d)]))
      = exec env (initState tok (some rt) path)
          ([i, j].map Act.run ++ [Act.complete (some d)]) ∧
    runCaller env j (exec env (initState tok (some rt) path)
        ([i, j].map Act.run ++ [Act.complete (some d)]))
      = exec env (initState tok (some rt) path)
          ([i, j].map Act.run ++ [Act.complete (some d)]) := by
  have hnd : (i :: [j]).Nodup := by simp [hij]
  have hfan := exec_fanin env tok rt path i [j] hnd h401 hurl
  have hsplit : exec env (initState tok (some rt) path)
      ([i, j].map Act.run ++ [Act.complete (some d)])
      = completeRenewal env (some d)
          (exec env (initState tok (some rt) path) ([i, j].map Act.run)) := by
    rw [exec_append]; rfl
  rw [hsplit, hfan, completeRenewal_some env d _ i rfl]
  refine ⟨by simp, by simp, rfl, ?_, ?_⟩ <;> simp [runCaller]

/-- Environment for the retry-still-expired witness: ordinary API targets
whose retry also comes back 401. -/
def rEnv : Env :=
  { url := fun _ => "/api/items"
    origResp := fun _ => ⟨401, "expired"⟩
    retryResp := fun _ => ⟨401, "expired"⟩ }

theorem retry_still_expired_terminal_witness :
    (exec rEnv (initState (some "t1") (some "r1") "/library")
        ([0, 1].map Act.run ++ [Act.complete (some ⟨"A2", "R2", 3600⟩)])).phases 0
      = Phase.done (Outcome.retried (rEnv.retryResp 0) "A2") ∧
    (exec rEnv (initState (some "t1") (some "r1") "/library")
        ([0, 1].map Act.run ++ [Act.complete (some ⟨"A2", "R2", 3600⟩)])).phases 1
      = Phase.done (Outcome.retried (rEnv.retryResp 1) "A2") ∧
    (exec rEnv (initState (some "t1") (some "r1") "/library")
        ([0, 1].map Act.run ++ [Act.complete (some ⟨"A2", "R2", 3600⟩)])).renewals
      = ["r1"] ∧
    runCaller rEnv 0 (exec rEnv (initState (some "t1") (some "r1") "/library")
        ([0, 1].map Act.run ++ [Act.complete (some ⟨"A2", "R2", 3600⟩)]))
      = exec rEnv (initState (some "t1") (some "r1") "/library")
          ([0, 1].map Act.run ++ [Act.complete (some ⟨"A2", "R2", 3600⟩)]) ∧
    runCaller rEnv 1 (exec rEnv (initState (some "t1") (some "r1") "/library")
        ([0, 1].map Act.run ++ [Act.complete (some ⟨"A2", "R2", 3600⟩)]))
      = exec rEnv (initState (some "t1") (some "r1") "/library")
          ([0, 1].map Act.run ++ [Act.complete (some ⟨"A2", "R2", 3600⟩)]) :=
  retry_still_expired_terminal rEnv (some "t1") "r1" "/library" ⟨"A2", "R2", 3600⟩ 0 1
    (by decide) (by decide) (by decide) (by decide) (by decide)

/-- C8 — Success-path state update: delivering a successful renewal response
with body `d` replaces both stored credential slots with the new pair in the
same step, and appends exactly one cookie write scoped to `path=/` with
`max-age` equal to the declared `lifetime_in_seconds` and SameSite=Lax, which
withholds the cookie from cross-site subresource requests. -/
theorem renewal_success_state_update (env : Env) (d : RenewalData) (st : SysState) (j : Nat)
    (hinit : st.initiator = some j) :
    (completeRenewal env (some d) st).store
      = ⟨some d.access_token, some d.refresh_token⟩ ∧
    (completeRenewal env (some d) st).cookies
      = st.cookies ++ [⟨"access_token", d.access_token, "/", d.lifetime_in_seconds, "Lax"⟩] ∧
    sentCrossSite ⟨"access_token", d.access_token, "/", d.lifetime_in_seconds, "Lax"⟩ = false := by
  rw [completeRenewal_some env d st j hinit]
  exact ⟨rfl, rfl, rfl⟩

theorem renewal_success_state_update_witness :
    (completeRenewal wEnv (some ⟨"A2", "R2", 3600⟩)
        { initState (some "t1") (some "r1") "/library" with initiator := some 0 }).store
      = ⟨some "A2", some "R2"⟩ ∧
    (completeRenewal wEnv (some ⟨"A2", "R2", 3600⟩)
        { initState (some "t1") (some "r1") "/library" with initiator := some 0 }).cookies
      = { initState (some "t1") (some "r1") "/library" with initiator := some 0 }.cookies
          ++ [⟨"access_token", "A2", "/", 3600, "Lax"⟩] ∧
    sentCrossSite ⟨"access_token", "A2", "/", 3600, "Lax"⟩ = false :=
  renewal_success_state_update wEnv ⟨"A2", "R2", 3600⟩
    { initState (some "t1") (some "r1") "/library" with initiator := some 0 } 0 rfl

/-- C9 — Rotation: across two consecutive renewal cycles the body of renewal
call 2 carries exactly the rotated `refresh_token` stored on the success of
renewal call 1 (the renewal log is `[rt, d1.refresh_token]`), so under the
endpoint contract that the returned token differs from the submitted one, the
refresh credential used in consecutive renewal calls never repeats. -/
theorem refresh_rotation (env : Env) (tok : Option String) (rt path : String)
    (d1 d2 : RenewalData) (i j : Nat) (hij : i ≠ j)
    (h401i : (env.origResp i).status = 401)
    (h401j : (env.origResp j).status = 401)
    (hurli : credEndpoint (env.url i) = false)
    (hurlj : credEndpoint (env.url j) = false) :
    (exec env (initState tok (some rt) path)
        [Act.run i, Act.complete (some d1), Act.run j, Act.complete (some d2)]).renewals
      = [rt, d1.refresh_token] ∧
    (d1.refresh_token ≠ rt →
      (exec env (initState tok (some rt) path)
          [Act.run i, Act.complete (some d1), Act.run j, Act.complete (some d2)]).renewals[0]?
        ≠ (exec env (initState tok (some rt) path)
            [Act.run i, Act.complete (some d1), Act.run j, Act.complete (some d2)]).renewals[1]?) := by
  have hji : j ≠ i := Ne.symm hij
  have hstep : exec env (initState tok (some rt) path)
      [Act.run i, Act.complete (some d1), Act.run j, Act.complete (some d2)]
      = completeRenewal env (some d2)
          (runCaller env j
            (completeRenewal env (some d1)
              (runCaller env i (initState tok (some rt) path)))) := rfl
  rw [hstep,
    runCaller_start env i (initState tok (some rt) path) rt rfl h401i rfl rfl hurli,
    completeRenewal_some env d1 _ i rfl,
    runCaller_start env j _ d1.refresh_token
      (by simp [initState, setPhase, hji]) h401j rfl rfl hurlj,
    completeRenewal_some env d2 _ j rfl]
  refine ⟨by simp [initState], ?_⟩
  intro hne
  simp only [initState, List.nil_append]
  simp [Ne.symm hne]

theorem refresh_rotation_witness :
    (exec wEnv (initState (some "t1") (some "r1") "/library")
        [Act.run 0, Act.complete (some ⟨"A2", "R2", 3600⟩),
         Act.run 1, Act.complete (some ⟨"A3", "R3", 3600⟩)]).renewals
      = ["r1", "R2"] ∧
    (("R2" : String) ≠ "r1" →
      (exec wEnv (initState (some "t1") (some "r1") "/library")
          [Act.run 0, Act.complete (some ⟨"A2", "R2", 3600⟩),
           Act.run 1, Act.complete (some ⟨"A3", "R3", 3600⟩)]).renewals[0]?
        ≠ (exec wEnv (initState (some "t1") (some "r1") "/library")
            [Act.run 0, Act.complete (some ⟨"A2", "R2", 3600⟩),
             Act.run 1, Act.complete (some ⟨"A3", "R3", 3600⟩)]).renewals[1]?) :=
  refresh_rotation wEnv (some "t1") "r1" "/library" ⟨"A2", "R2", 3600⟩ ⟨"A3", "R3", 3600⟩
    0 1 (by decide) (by decide) (by decide) (by decide) (by decide)

/-- C10 — Endpoint classification is substring matching, not path identity:
any target whose URL string contains `/token` or `/refresh` anywhere — such as
`/api/tokens`, or a query string mentioning them — takes the immediate-logout
branch on a 401 even while a valid refresh credential is stored: both slots
are cleared, no renewal call is made, and the caller gets its original 401. -/
theorem substring_endpoint_classification (env : Env) (i : Nat) (st : SysState) (rt : String)
    (hready : st.phases i = Phase.ready)
    (h401 : (env.origResp i).status = 401)
    (hidle : st.isRefreshing = false)
    (hrt : st.store.refresh_token = some rt)
    (hurl : jsIncludes (env.url i) "/token" = true ∨ jsIncludes (env.url i) "/refresh" = true) :
    (runCaller env i st).store = ⟨none, none⟩ ∧
    (runCaller env i st).renewals = st.renewals ∧
    (runCaller env i st).phases i = Phase.done (Outcome.original401 (env.origResp i)) := by
  have hcred : credEndpoint (env.url i) = true := by
    rcases hurl with h | h <;> simp [credEndpoint, h]
  refine ⟨?_, ?_, ?_⟩ <;>
    simp [runCaller, handle401, logout401, setPhase, hready, h401, hidle, hrt, hcred]

/-- Environment for the substring-classification witness: the target
`/api/tokens` is not the renewal or login endpoint, yet contains `/token`. -/
def sEnv : Env :=
  { url := fun _ => "/api/tokens"
    origResp := fun _ => ⟨401, "expired"⟩
    retryResp := fun _ => ⟨200, "ok"⟩ }

theorem substring_endpoint_classification_witness :
    (runCaller sEnv 0 (initState (some "t1") (some "r1") "/library")).store = ⟨none, none⟩ ∧
    (runCaller sEnv 0 (initState (some "t1") (some "r1") "/library")).renewals
      = (initState (some "t1") (some "r1") "/library").renewals ∧
    (runCaller sEnv 0 (initState (some "t1") (some "r1") "/library")).phases 0
      = Phase.done (Outcome.original401 (sEnv.origResp 0)) :=
  substring_endpoint_classification sEnv 0 (initState (some "t1") (some "r1") "/library") "r1"
    rfl (by decide) rfl rfl (Or.inl (by decide))

end Parker
